import Mathlib

/-!
Verification of the ISO-11783 transport-protocol engine and Virtual Terminal
server of this repository, as a shallow embedding in Lean 4.

Transport protocol: `can_transport_protocol.cpp` (file `src/unnamed/part_001`)
with its header (file `src/unnamed/part_002`), and the payload containers of
`src/isobus/src/can_transport_message.cpp`.

Virtual Terminal: `VirtualTerminalServer::process_rx_message` command cases
(file `src/unnamed/part_000`) and the object model of
`src/isobus/src/isobus_virtual_terminal_objects.cpp`.

Machine integers are embedded as `Nat` with explicit `% 2^w` where the C++
performs a narrowing cast or unsigned wrap-around; `std::int8_t` / `std::int16_t`
arithmetic is embedded as `Int` reduced into the two's-complement range.
CAN payload bytes (C++ `std::uint8_t`) are read through `tp_get_uint8_at`,
which carries the `< 256` typing invariant as an explicit `% 256`.
-/

/-! ## Transport protocol: constants (can_transport_protocol.hpp lines 128-139) -/

/-- A classic CAN frame carries at most 8 data bytes. -/
def CAN_DATA_LENGTH : Nat := 8

/-- `MAX_PROTOCOL_DATA_LENGTH = 1785`, the most bytes TP can transfer. -/
def MAX_PROTOCOL_DATA_LENGTH : Nat := 1785

/-- `PROTOCOL_BYTES_PER_FRAME = 7`: payload bytes per TP.DT frame. -/
def PROTOCOL_BYTES_PER_FRAME : Nat := 7

/-- `SEQUENCE_NUMBER_DATA_INDEX = 0`: index of the sequence byte in a TP.DT frame. -/
def SEQUENCE_NUMBER_DATA_INDEX : Nat := 0

/-- `ConnectionAbortReason::AlreadyInCMSession = 1`. -/
def AlreadyInCMSession : Nat := 1

/-- `ConnectionAbortReason::UnexpectedDataTransferPacketReceived = 6`. -/
def UnexpectedDataTransferPacketReceived : Nat := 6

/-- `ConnectionAbortReason::BadSequenceNumber = 7`. -/
def BadSequenceNumber : Nat := 7

/-- `ConnectionAbortReason::DuplicateSequenceNumber = 8`. -/
def DuplicateSequenceNumber : Nat := 8

/-- `ConnectionAbortReason::AnyOtherError = 250`. -/
def AnyOtherError : Nat := 250

/-- Reading a `std::uint8_t` out of a byte buffer (`CANMessage::get_uint8_at`,
`CANTransportData::get_byte`): the C++ type guarantees a value below 256, which
the embedding records as an explicit `% 256`. Out-of-range reads default to 0. -/
def tp_get_uint8_at (data : List Nat) (index : Nat) : Nat :=
  data.getD index 0 % 256

/-! ## Transport protocol: data model (can_transport_protocol.hpp lines 38-110) -/

/-- `TransportProtocolManager::StateMachineState`. -/
inductive StateMachineState where
  | NoSession
  | ClearToSend
  | RxDataSession
  | RequestToSend
  | WaitForClearToSend
  | BroadcastAnnounce
  | TxDataSession
  | WaitForEndOfMessageAcknowledge
deriving DecidableEq

/-- `TransportProtocolSession::Direction`. -/
inductive Direction where
  | Transmit
  | Receive
deriving DecidableEq

/-- A CAN control function. C++ passes `std::shared_ptr<ControlFunction>` and
compares them by pointer identity; the embedding identifies a control function
by a numeric identity `id`. `addressValid` is `ControlFunction::get_address_valid()`. -/
structure ControlFunction where
  id : Nat
  addressValid : Bool
deriving DecidableEq

/-- `TransportProtocolManager::TransportProtocolSession` together with the
parts of its embedded `CANTransportMessage` the protocol logic reads: pgn,
source, destination (`none` = null pointer = global destination) and the byte
buffer (`CANTransportData`, whose length is `get_message_data_length()`).
Timestamps and the completion callback play no part in the verified claims
and are omitted. -/
structure TransportProtocolSession where
  direction : Direction
  pgn : Nat
  source : ControlFunction
  destination : Option ControlFunction
  data : List Nat
  state : StateMachineState
  lastPacketNumber : Nat
  packetCount : Nat
  processedPacketsThisSession : Nat
  clearToSendPacketMax : Nat
deriving DecidableEq

/-- `TransportProtocolManager::has_session` (can_transport_protocol.cpp lines
876-882): `std::any_of` over `activeSessions` comparing the session's source
and destination with the given pair. -/
def has_session (activeSessions : List TransportProtocolSession)
    (source : ControlFunction) (destination : Option ControlFunction) : Bool :=
  activeSessions.any fun s =>
    decide (s.source = source) && decide (s.destination = destination)

/-- `TransportProtocolManager::protocol_transmit_message` (lines 481-526).
Returns the C++ `bool` and the session table after the call. `data = none`
embeds a null `std::unique_ptr<CANTransportData>` and `source = none` a null
source pointer; the source checks each produce `return false` with no side
effect (the C++ tests lengths first, then the source — both orders yield the
same result, so the null cases are matched up front). `packetCount` is
computed as `static_cast<std::uint8_t>(len / 7)` and incremented (as a
`uint8`) when `len % 7 != 0`; the new session enters state `RequestToSend`
for a specific destination and `BroadcastAnnounce` for a global one. -/
def protocol_transmit_message (activeSessions : List TransportProtocolSession)
    (parameterGroupNumber : Nat) (data : Option (List Nat))
    (source : Option ControlFunction) (destination : Option ControlFunction) :
    Bool × List TransportProtocolSession :=
  match data, source with
  | Option.none, _ => (false, activeSessions)
  | Option.some _, Option.none => (false, activeSessions)
  | Option.some d, Option.some src =>
    if d.length ≤ CAN_DATA_LENGTH ∨ d.length > MAX_PROTOCOL_DATA_LENGTH then
      (false, activeSessions)
    else
      if src.addressValid = false ∨ has_session activeSessions src destination = true then
        (false, activeSessions)
      else
        let packetCountFloor := (d.length / PROTOCOL_BYTES_PER_FRAME) % 256
        let packetCount :=
          if d.length % PROTOCOL_BYTES_PER_FRAME ≠ 0 then (packetCountFloor + 1) % 256
          else packetCountFloor
        let session : TransportProtocolSession :=
          { direction := Direction.Transmit
            pgn := parameterGroupNumber
            source := src
            destination := destination
            data := d
            state := if destination.isSome then StateMachineState.RequestToSend
                     else StateMachineState.BroadcastAnnounce
            lastPacketNumber := 0
            packetCount := packetCount
            processedPacketsThisSession := 0
            clearToSendPacketMax := 0 }
        (true, activeSessions ++ [session])

/-- C3: `protocol_transmit_message` (with a non-null data pointer) returns
false exactly when the payload length is at most 8 bytes, exceeds 1785 bytes,
the source control function is missing or has an invalid address, or a session
already occupies the (source, destination) slot; otherwise it returns true and
appends one new session whose `packetCount` is the ceiling of the payload
length divided by 7. -/
theorem protocol_transmit_message_spec (activeSessions : List TransportProtocolSession)
    (pgn : Nat) (d : List Nat) (source : Option ControlFunction)
    (destination : Option ControlFunction) :
    ((protocol_transmit_message activeSessions pgn (Option.some d) source destination).fst = false ↔
      (d.length ≤ 8 ∨ d.length > 1785 ∨ source = Option.none ∨
        (∃ src, source = Option.some src ∧ src.addressValid = false) ∨
        (∃ src, source = Option.some src ∧
          has_session activeSessions src destination = true))) ∧
    ((protocol_transmit_message activeSessions pgn (Option.some d) source destination).fst = true →
      ∃ s, (protocol_transmit_message activeSessions pgn (Option.some d) source destination).snd =
            activeSessions ++ [s] ∧ s.packetCount = (d.length + 6) / 7) := by
  refine ⟨?_, ?_⟩
  · cases source with
    | none =>
      refine ⟨fun _ => Or.inr (Or.inr (Or.inl rfl)), fun _ => rfl⟩
    | some src =>
      simp only [protocol_transmit_message]
      by_cases hlen : d.length ≤ CAN_DATA_LENGTH ∨ d.length > MAX_PROTOCOL_DATA_LENGTH
      · rw [if_pos hlen]
        exact ⟨fun _ => hlen.imp id Or.inl, fun _ => rfl⟩
      · rw [if_neg hlen]
        by_cases hsrc : src.addressValid = false ∨ has_session activeSessions src destination = true
        · rw [if_pos hsrc]
          refine ⟨fun _ => ?_, fun _ => rfl⟩
          rcases hsrc with h | h
          · exact Or.inr (Or.inr (Or.inr (Or.inl ⟨src, rfl, h⟩)))
          · exact Or.inr (Or.inr (Or.inr (Or.inr ⟨src, rfl, h⟩)))
        · rw [if_neg hsrc]
          constructor
          · intro h; exact absurd h (by simp)
          · intro hp
            exfalso
            rcases hp with h | h | h | ⟨src', e, hval⟩ | ⟨src', e, hses⟩
            · exact hlen (Or.inl h)
            · exact hlen (Or.inr h)
            · exact Option.noConfusion h
            · cases e; exact hsrc (Or.inl hval)
            · cases e; exact hsrc (Or.inr hses)
  · cases source with
    | none => intro h; exact absurd h (by simp [protocol_transmit_message])
    | some src =>
      simp only [protocol_transmit_message]
      by_cases hlen : d.length ≤ CAN_DATA_LENGTH ∨ d.length > MAX_PROTOCOL_DATA_LENGTH
      · rw [if_pos hlen]; intro h; exact absurd h (by simp)
      · rw [if_neg hlen]
        by_cases hsrc : src.addressValid = false ∨ has_session activeSessions src destination = true
        · rw [if_pos hsrc]; intro h; exact absurd h (by simp)
        · rw [if_neg hsrc]
          dsimp only
          intro _
          refine ⟨_, rfl, ?_⟩
          dsimp only
          simp only [CAN_DATA_LENGTH, MAX_PROTOCOL_DATA_LENGTH] at hlen
          push_neg at hlen
          simp only [PROTOCOL_BYTES_PER_FRAME]
          split_ifs with hmod <;> omega

/-! ## Transport protocol: TP.DT reception (can_transport_protocol.cpp lines 382-432) -/

/-- What one TP.DT frame does to the receive session it addresses.

`abortAndRemove r`: `abort_session(session, r)` ran — an abort frame carrying
reason byte `r` is sent to the peer and `close_session` erases the session
from `activeSessions` (lines 701-723, 747-768).

`progress s'`: the frame was accepted and the session stays in the table with
the updated fields `s'`.

`completeAndRemove s' sentEOM`: the frame was accepted, it finished the
message (`lastPacketNumber * 7 >= data length`), an End-Of-Message
Acknowledgement was sent when the destination is specific (`sentEOM`), the
assembled payload `s'.data` was delivered upward, and `close_session` erased
the session. -/
inductive DataTransferAction where
  | abortAndRemove (reason : Nat)
  | progress (s : TransportProtocolSession)
  | completeAndRemove (s : TransportProtocolSession) (sentEOM : Bool)
deriving DecidableEq

/-- The copy loop of `process_data_transfer_message` (lines 402-406): for
`i = 0..6`, while `7 * lastPacketNumber + i` is below the session's data
length, overwrite that byte with frame byte `1 + i`. `set_byte` is
`CANTransportDataVector::set_byte`, a write through `vector::at` that never
changes the buffer's length. -/
def copy_frame_bytes (data : List Nat) (lastPacketNumber : Nat) (frame : List Nat) : List Nat :=
  (List.range PROTOCOL_BYTES_PER_FRAME).foldl
    (fun acc i =>
      if PROTOCOL_BYTES_PER_FRAME * lastPacketNumber + i < acc.length then
        acc.set (PROTOCOL_BYTES_PER_FRAME * lastPacketNumber + i) (tp_get_uint8_at frame (1 + i))
      else acc)
    data

/-- The session fields after an in-sequence TP.DT frame is accepted
(lines 402-409): bytes copied, `lastPacketNumber` and
`processedPacketsThisSession` incremented as `std::uint8_t`. -/
def accepted_session (session : TransportProtocolSession) (frame : List Nat) :
    TransportProtocolSession :=
  { session with
    data := copy_frame_bytes session.data session.lastPacketNumber frame
    lastPacketNumber := (session.lastPacketNumber + 1) % 256
    processedPacketsThisSession := (session.processedPacketsThisSession + 1) % 256 }

/-- The body of `TransportProtocolManager::process_data_transfer_message`
(lines 387-427) for the session `get_session` found. `frame` is the 8-byte
TP.DT payload, `destinationGlobal` is `message.is_destination_global()`.
The checks run in source order: wrong state; duplicate sequence number;
expected sequence number (copy, increment as `uint8`, complete when
`lastPacketNumber * 7` reaches the data length); otherwise bad sequence
number. -/
def process_data_transfer_for_session (session : TransportProtocolSession)
    (frame : List Nat) (destinationGlobal : Bool) : DataTransferAction :=
  if session.state ≠ StateMachineState.RxDataSession then
    DataTransferAction.abortAndRemove UnexpectedDataTransferPacketReceived
  else if tp_get_uint8_at frame SEQUENCE_NUMBER_DATA_INDEX = session.lastPacketNumber then
    DataTransferAction.abortAndRemove DuplicateSequenceNumber
  else if tp_get_uint8_at frame SEQUENCE_NUMBER_DATA_INDEX = session.lastPacketNumber + 1 then
    if (accepted_session session frame).lastPacketNumber * PROTOCOL_BYTES_PER_FRAME ≥
        (accepted_session session frame).data.length then
      DataTransferAction.completeAndRemove (accepted_session session frame) (!destinationGlobal)
    else
      DataTransferAction.progress (accepted_session session frame)
  else
    DataTransferAction.abortAndRemove BadSequenceNumber

/-- C2: for a receive session in state `RxDataSession` and a TP.DT frame with
sequence number N (byte 0): N = lastPacketNumber + 1 accepts the frame and
increments `lastPacketNumber`; N = lastPacketNumber aborts the session with
reason DuplicateSequenceNumber (8), removing it from the session table; any
other N aborts it with reason BadSequenceNumber (7). -/
theorem process_data_transfer_sequence_validation
    (session : TransportProtocolSession) (frame : List Nat) (destinationGlobal : Bool)
    (hstate : session.state = StateMachineState.RxDataSession) :
    (tp_get_uint8_at frame 0 = session.lastPacketNumber →
      process_data_transfer_for_session session frame destinationGlobal =
        DataTransferAction.abortAndRemove 8) ∧
    (tp_get_uint8_at frame 0 = session.lastPacketNumber + 1 →
      ∃ s' sentEOM,
        (process_data_transfer_for_session session frame destinationGlobal =
          DataTransferAction.progress s' ∨
         process_data_transfer_for_session session frame destinationGlobal =
          DataTransferAction.completeAndRemove s' sentEOM) ∧
        s'.lastPacketNumber = session.lastPacketNumber + 1) ∧
    (tp_get_uint8_at frame 0 ≠ session.lastPacketNumber ∧
     tp_get_uint8_at frame 0 ≠ session.lastPacketNumber + 1 →
      process_data_transfer_for_session session frame destinationGlobal =
        DataTransferAction.abortAndRemove 7) := by
  have hseq : tp_get_uint8_at frame SEQUENCE_NUMBER_DATA_INDEX = tp_get_uint8_at frame 0 := rfl
  have hb : tp_get_uint8_at frame 0 < 256 := Nat.mod_lt _ (by omega)
  refine ⟨?_, ?_, ?_⟩
  · intro hdup
    unfold process_data_transfer_for_session
    rw [if_neg (by simp [hstate]), hseq, if_pos hdup]
    rfl
  · intro hnext
    unfold process_data_transfer_for_session
    rw [if_neg (by simp [hstate]), hseq, if_neg (by omega), if_pos hnext]
    have hlt : session.lastPacketNumber + 1 < 256 := by omega
    have hlast : (accepted_session session frame).lastPacketNumber =
        session.lastPacketNumber + 1 := by
      simp [accepted_session, Nat.mod_eq_of_lt hlt]
    by_cases hdone :
        (accepted_session session frame).lastPacketNumber * PROTOCOL_BYTES_PER_FRAME ≥
          (accepted_session session frame).data.length
    · rw [if_pos hdone]
      exact ⟨_, !destinationGlobal, Or.inr rfl, hlast⟩
    · rw [if_neg hdone]
      exact ⟨_, true, Or.inl rfl, hlast⟩
  · intro ⟨hne, hne'⟩
    unfold process_data_transfer_for_session
    rw [if_neg (by simp [hstate]), hseq, if_neg hne, if_neg hne']
    rfl

/-- Witness for C2 at concrete inputs: a receive session with
`lastPacketNumber = 3` aborts with reason 8 on a duplicate frame (seq 3),
accepts seq 4, and aborts with reason 7 on seq 6. -/
theorem process_data_transfer_sequence_validation_witness :
    (process_data_transfer_for_session
        { direction := Direction.Receive, pgn := 0xFEEC,
          source := { id := 1, addressValid := true },
          destination := Option.some { id := 2, addressValid := true },
          data := [10, 11, 12, 13, 14, 15, 16, 17, 18, 19, 20, 21, 22, 23, 24,
                   25, 26, 27, 28, 29, 30, 31, 32, 33, 34, 35, 36, 37, 38, 39],
          state := StateMachineState.RxDataSession,
          lastPacketNumber := 3, packetCount := 5,
          processedPacketsThisSession := 3, clearToSendPacketMax := 16 }
        [3, 1, 2, 3, 4, 5, 6, 7] false =
      DataTransferAction.abortAndRemove 8) ∧
    (process_data_transfer_for_session
        { direction := Direction.Receive, pgn := 0xFEEC,
          source := { id := 1, addressValid := true },
          destination := Option.some { id := 2, addressValid := true },
          data := [10, 11, 12, 13, 14, 15, 16, 17, 18, 19, 20, 21, 22, 23, 24,
                   25, 26, 27, 28, 29, 30, 31, 32, 33, 34, 35, 36, 37, 38, 39],
          state := StateMachineState.RxDataSession,
          lastPacketNumber := 3, packetCount := 5,
          processedPacketsThisSession := 3, clearToSendPacketMax := 16 }
        [6, 1, 2, 3, 4, 5, 6, 7] false =
      DataTransferAction.abortAndRemove 7) := by
  have h := process_data_transfer_sequence_validation
    { direction := Direction.Receive, pgn := 0xFEEC,
      source := { id := 1, addressValid := true },
      destination := Option.some { id := 2, addressValid := true },
      data := [10, 11, 12, 13, 14, 15, 16, 17, 18, 19, 20, 21, 22, 23, 24,
               25, 26, 27, 28, 29, 30, 31, 32, 33, 34, 35, 36, 37, 38, 39],
      state := StateMachineState.RxDataSession,
      lastPacketNumber := 3, packetCount := 5,
      processedPacketsThisSession := 3, clearToSendPacketMax := 16 }
    [3, 1, 2, 3, 4, 5, 6, 7] false rfl
  have h' := process_data_transfer_sequence_validation
    { direction := Direction.Receive, pgn := 0xFEEC,
      source := { id := 1, addressValid := true },
      destination := Option.some { id := 2, addressValid := true },
      data := [10, 11, 12, 13, 14, 15, 16, 17, 18, 19, 20, 21, 22, 23, 24,
               25, 26, 27, 28, 29, 30, 31, 32, 33, 34, 35, 36, 37, 38, 39],
      state := StateMachineState.RxDataSession,
      lastPacketNumber := 3, packetCount := 5,
      processedPacketsThisSession := 3, clearToSendPacketMax := 16 }
    [6, 1, 2, 3, 4, 5, 6, 7] false rfl
  exact ⟨h.1 (by decide), (h'.2.2) (by decide)⟩

/-! ## Transport protocol: TP.DT transmission (lines 544-616) -/

/-- One TP.DT frame as `send_data_transfer_packets` builds it: byte 0 carries
`processedPacketsThisSession + 1` (a `uint8`), bytes 1..7 carry payload bytes
`j + 7 * processedPacketsThisSession` for `j = 0..6`, and 0xFF where that
index is at or past the payload length (lines 553-566). -/
def build_data_frame (data : List Nat) (processedPacketsThisSession : Nat) : List Nat :=
  ((processedPacketsThisSession + 1) % 256) ::
    ((List.range PROTOCOL_BYTES_PER_FRAME).map fun j =>
      if j + PROTOCOL_BYTES_PER_FRAME * processedPacketsThisSession < data.length then
        tp_get_uint8_at data (j + PROTOCOL_BYTES_PER_FRAME * processedPacketsThisSession)
      else 0xFF)

/-- The TP.DT frames the transmit loop of `send_data_transfer_packets` emits
over the whole session, for a fresh session (`lastPacketNumber =
processedPacketsThisSession = 0`), assuming every `send_can_message`
succeeds. The per-update BAM-pacing and throttle breaks (lines 580-588) only
spread the same frames over several `update()` calls; the frame contents are
`build_data_frame data i` for `i = 0 .. packetCount - 1`. -/
def sender_data_frames (data : List Nat) (packetCount : Nat) : List (List Nat) :=
  (List.range packetCount).map (build_data_frame data)

/-- `vector::reserve`: requests capacity, leaves the vector's contents and
SIZE unchanged. `process_broadcast_announce_message` and
`process_request_to_send` call it (lines 113-114 and 158-159) on the freshly
default-constructed `CANTransportDataVector` of a new receive session. -/
def vector_reserve (_n : Nat) (v : List Nat) : List Nat := v

/-- The receive session `process_request_to_send` pushes (lines 158-170): a
fresh `CANTransportDataVector` with `reserve(totalMessageSize)` — so its size
is 0 — `packetCount` and `clearToSendPacketMax` from the RTS bytes, state
`ClearToSend`. -/
def rts_rx_session (pgn : Nat) (source : ControlFunction)
    (destination : Option ControlFunction)
    (totalMessageSize totalNumberOfPackets clearToSendPacketMax : Nat) :
    TransportProtocolSession :=
  { direction := Direction.Receive
    pgn := pgn
    source := source
    destination := destination
    data := vector_reserve totalMessageSize []
    state := StateMachineState.ClearToSend
    lastPacketNumber := 0
    packetCount := totalNumberOfPackets
    processedPacketsThisSession := 0
    clearToSendPacketMax := clearToSendPacketMax }

/-- C1 (code bug): the transmit/receive round trip fails on every payload.
The sender segments a 9-byte payload `[1..9]` into the two data frames the
claim describes (sequence byte then 7 payload bytes, 0xFF padding), but the
receive session that `process_request_to_send` builds only RESERVES
`totalMessageSize` bytes — its buffer size stays 0 — so the very first
in-sequence data frame already satisfies the completion test
`lastPacketNumber * 7 >= length`, copies nothing, sends the EOM-ACK and
delivers an empty payload instead of the 9 bytes sent. -/
theorem tp_reserve_bug_first_frame_completes_with_empty_payload :
    sender_data_frames [1, 2, 3, 4, 5, 6, 7, 8, 9] 2 =
      [[1, 1, 2, 3, 4, 5, 6, 7], [2, 8, 9, 0xFF, 0xFF, 0xFF, 0xFF, 0xFF]] ∧
    (rts_rx_session 0xFEEC { id := 1, addressValid := true }
        (Option.some { id := 2, addressValid := true }) 9 2 16).data.length = 0 ∧
    process_data_transfer_for_session
        { rts_rx_session 0xFEEC { id := 1, addressValid := true }
            (Option.some { id := 2, addressValid := true }) 9 2 16 with
          state := StateMachineState.RxDataSession }
        [1, 1, 2, 3, 4, 5, 6, 7] false =
      DataTransferAction.completeAndRemove
        { direction := Direction.Receive, pgn := 0xFEEC,
          source := { id := 1, addressValid := true },
          destination := Option.some { id := 2, addressValid := true },
          data := [],
          state := StateMachineState.RxDataSession,
          lastPacketNumber := 1, packetCount := 2,
          processedPacketsThisSession := 1, clearToSendPacketMax := 16 } true ∧
    ([] : List Nat) ≠ [1, 2, 3, 4, 5, 6, 7, 8, 9] := by
  refine ⟨by decide, by decide, by decide, by decide⟩

/-! ## Transport protocol: session lookup and admission (lines 94-172, 884-891) -/

/-- A C++ raw pointer into `activeSessions` as the embedding sees it:
`null` (`nullptr`), `elem i` (the address of element `i`), or `pastEnd`
(the address one past the last element, as `&*activeSessions.end()`
yields on common implementations; dereferencing the end iterator is
undefined behaviour in C++). -/
inductive SessionPointer where
  | null
  | elem (i : Nat)
  | pastEnd
deriving DecidableEq

/-- The `std::find_if` of `get_session` / `has_session`: index of the first
session matching (source, destination), or `activeSessions.length` when none
matches (the end iterator). -/
def find_session_index (activeSessions : List TransportProtocolSession)
    (source : ControlFunction) (destination : Option ControlFunction) : Nat :=
  activeSessions.findIdx fun s =>
    decide (s.source = source) && decide (s.destination = destination)

/-- `TransportProtocolManager::get_session` (lines 884-891): it returns
`&*std::find_if(activeSessions.begin(), activeSessions.end(), ...)` with no
end check. When a session matches, that is the address of the matching
element; when none does, `find_if` returns `end()` and the code dereferences
it — reading one past the end of the table — which on common implementations
yields the (non-null) past-the-end address, never `nullptr`. -/
def get_session (activeSessions : List TransportProtocolSession)
    (source : ControlFunction) (destination : Option ControlFunction) : SessionPointer :=
  let i := find_session_index activeSessions source destination
  if i < activeSessions.length then SessionPointer.elem i else SessionPointer.pastEnd

/-- C9 (code bug): on a (source, destination) pair with no matching session —
here the empty table, as when a CTS arrives for a non-existent session —
`get_session` does not return a null result: it dereferences the end
iterator and produces the past-the-end pointer, so a caller's null test
(`if (auto session = get_session(...))`) still enters the session branch
and the guarded no-session branch of `process_clear_to_send` cannot run. -/
theorem get_session_miss_returns_past_end_not_null :
    get_session [] { id := 1, addressValid := true }
        (Option.some { id := 2, addressValid := true }) = SessionPointer.pastEnd ∧
    SessionPointer.pastEnd ≠ SessionPointer.null ∧
    (∀ p : SessionPointer, p ≠ SessionPointer.null →
      (get_session [] { id := 1, addressValid := true }
          (Option.some { id := 2, addressValid := true }) = p → p ≠ SessionPointer.null)) := by
  refine ⟨by decide, by decide, fun p hp _ => hp⟩

/-- The 8-byte TP.CM abort frame `send_abort` builds (lines 725-745):
multiplexor 0xFF, the reason byte, three 0xFF, then the target PGN
little-endian (`pgn & 0xFF`, `(pgn >> 8) & 0xFF`, `(pgn >> 16) & 0xFF`). -/
def send_abort_buffer (pgn reason : Nat) : List Nat :=
  [0xFF, reason % 256, 0xFF, 0xFF, 0xFF,
   pgn % 256, (pgn / 256) % 256, (pgn / 65536) % 256]

/-- `TransportProtocolManager::process_request_to_send` (lines 129-172) as a
function of the configured session cap: the new table and the TP.CM frames
emitted. When the table is full it sends one abort with reason
`AlreadyInCMSession` and creates nothing. Otherwise it consults
`get_session`; a matching session with another PGN is aborted
(`AlreadyInCMSession`) and — like a matching session with the same PGN,
which is closed silently — erased before the new receive session is pushed.
When no session matches, `get_session` hands back the dereferenced end
iterator (see `get_session`); what the C++ does then is undefined behaviour,
embedded as `none`. -/
def process_request_to_send (maxSessions : Nat)
    (activeSessions : List TransportProtocolSession)
    (source : ControlFunction) (destination : Option ControlFunction)
    (pgn totalMessageSize totalNumberOfPackets clearToSendPacketMax : Nat) :
    Option (List TransportProtocolSession × List (List Nat)) :=
  if activeSessions.length ≥ maxSessions then
    Option.some (activeSessions, [send_abort_buffer pgn AlreadyInCMSession])
  else
    match get_session activeSessions source destination with
    | SessionPointer.elem i =>
      match activeSessions[i]? with
      | Option.none => Option.none
      | Option.some s =>
        let newSession := rts_rx_session pgn source destination
          totalMessageSize totalNumberOfPackets clearToSendPacketMax
        if s.pgn ≠ pgn then
          Option.some (activeSessions.eraseIdx i ++ [newSession],
            [send_abort_buffer s.pgn AlreadyInCMSession])
        else
          Option.some (activeSessions.eraseIdx i ++ [newSession], [])
    | _ => Option.none

/-- `TransportProtocolManager::process_broadcast_announce_message` (lines
94-127): over the session cap the BAM is ignored with no reply; otherwise an
existing session for (source, global) is closed silently and a broadcast
receive session is pushed (buffer only reserved, state `RxDataSession`).
The no-match case again dereferences the end iterator: `none`. -/
def process_broadcast_announce_message (maxSessions : Nat)
    (activeSessions : List TransportProtocolSession)
    (source : ControlFunction) (pgn totalMessageSize totalNumberOfPackets : Nat) :
    Option (List TransportProtocolSession × List (List Nat)) :=
  if activeSessions.length ≥ maxSessions then
    Option.some (activeSessions, [])
  else
    match get_session activeSessions source Option.none with
    | SessionPointer.elem i =>
      let newSession : TransportProtocolSession :=
        { direction := Direction.Receive
          pgn := pgn
          source := source
          destination := Option.none
          data := vector_reserve totalMessageSize []
          state := StateMachineState.RxDataSession
          lastPacketNumber := 0
          packetCount := totalNumberOfPackets
          processedPacketsThisSession := 0
          clearToSendPacketMax := 0 }
      Option.some (activeSessions.eraseIdx i ++ [newSession], [])
    | _ => Option.none

/-- C4: with the session table at (or beyond) the configured maximum, an
incoming RTS is answered with exactly one abort frame whose reason byte is
AlreadyInCMSession (1) and the table is unchanged (no session created); an
incoming BAM is dropped silently — no frame emitted, no session created. -/
theorem session_admission_full_table (maxSessions : Nat)
    (activeSessions : List TransportProtocolSession)
    (source : ControlFunction) (destination : Option ControlFunction)
    (pgn totalMessageSize totalNumberOfPackets clearToSendPacketMax : Nat)
    (hfull : activeSessions.length ≥ maxSessions) :
    process_request_to_send maxSessions activeSessions source destination
        pgn totalMessageSize totalNumberOfPackets clearToSendPacketMax =
      Option.some (activeSessions, [send_abort_buffer pgn AlreadyInCMSession]) ∧
    (send_abort_buffer pgn AlreadyInCMSession).getD 1 0 = 1 ∧
    process_broadcast_announce_message maxSessions activeSessions source
        pgn totalMessageSize totalNumberOfPackets =
      Option.some (activeSessions, []) := by
  refine ⟨?_, rfl, ?_⟩
  · unfold process_request_to_send
    rw [if_pos hfull]
  · unfold process_broadcast_announce_message
    rw [if_pos hfull]

/-- Witness for C4 at a concrete input: cap of 1 with one active session;
the RTS for PGN 0xE700 draws one abort frame `[0xFF, 1, 0xFF, 0xFF, 0xFF,
0x00, 0xE7, 0x00]` and the table keeps only the old session; the BAM draws
nothing. -/
theorem session_admission_full_table_witness :
    process_request_to_send 1
        [{ direction := Direction.Receive, pgn := 0xFEEC,
           source := { id := 1, addressValid := true },
           destination := Option.some { id := 2, addressValid := true },
           data := [], state := StateMachineState.RxDataSession,
           lastPacketNumber := 0, packetCount := 2,
           processedPacketsThisSession := 0, clearToSendPacketMax := 16 }]
        { id := 3, addressValid := true }
        (Option.some { id := 2, addressValid := true }) 0xE700 20 3 16 =
      Option.some
        ([{ direction := Direction.Receive, pgn := 0xFEEC,
            source := { id := 1, addressValid := true },
            destination := Option.some { id := 2, addressValid := true },
            data := [], state := StateMachineState.RxDataSession,
            lastPacketNumber := 0, packetCount := 2,
            processedPacketsThisSession := 0, clearToSendPacketMax := 16 }],
         [[0xFF, 1, 0xFF, 0xFF, 0xFF, 0x00, 0xE7, 0x00]]) ∧
    process_broadcast_announce_message 1
        [{ direction := Direction.Receive, pgn := 0xFEEC,
           source := { id := 1, addressValid := true },
           destination := Option.some { id := 2, addressValid := true },
           data := [], state := StateMachineState.RxDataSession,
           lastPacketNumber := 0, packetCount := 2,
           processedPacketsThisSession := 0, clearToSendPacketMax := 16 }]
        { id := 3, addressValid := true } 0xE700 20 3 =
      Option.some
        ([{ direction := Direction.Receive, pgn := 0xFEEC,
            source := { id := 1, addressValid := true },
            destination := Option.some { id := 2, addressValid := true },
            data := [], state := StateMachineState.RxDataSession,
            lastPacketNumber := 0, packetCount := 2,
            processedPacketsThisSession := 0, clearToSendPacketMax := 16 }],
         []) := by
  have h := session_admission_full_table 1
    [{ direction := Direction.Receive, pgn := 0xFEEC,
       source := { id := 1, addressValid := true },
       destination := Option.some { id := 2, addressValid := true },
       data := [], state := StateMachineState.RxDataSession,
       lastPacketNumber := 0, packetCount := 2,
       processedPacketsThisSession := 0, clearToSendPacketMax := 16 }]
    { id := 3, addressValid := true }
    (Option.some { id := 2, addressValid := true }) 0xE700 20 3 16 (by decide)
  refine ⟨?_, ?_⟩
  · rw [h.1]; decide
  · rw [h.2.2]

/-! ## Virtual Terminal: object model
(isobus_virtual_terminal_objects.cpp; types per the VT object enum) -/

/-- `VirtualTerminalObjectType`: the object-type tags used by the VT server
switches and the pool validators. -/
inductive VirtualTerminalObjectType where
  | WorkingSet
  | DataMask
  | AlarmMask
  | Container
  | SoftKeyMask
  | Key
  | Button
  | InputBoolean
  | InputString
  | InputNumber
  | InputList
  | OutputString
  | OutputNumber
  | OutputList
  | OutputLine
  | OutputRectangle
  | OutputEllipse
  | OutputPolygon
  | OutputMeter
  | OutputLinearBarGraph
  | OutputArchedBarGraph
  | GraphicsContext
  | PictureGraphic
  | NumberVariable
  | StringVariable
  | FontAttributes
  | LineAttributes
  | FillAttributes
  | InputAttributes
  | ObjectPointer
  | ExternalObjectPointer
  | ExternalObjectDefinition
  | Animation
  | Macro
  | ColourMap
  | WindowMask
deriving DecidableEq

/-- `VTObject::ChildObjectData` (objects cpp lines 204-230): a child object
ID with its signed 16-bit (x, y) offset. -/
structure ChildObjectData where
  id : Nat
  xLocation : Int
  yLocation : Int
deriving DecidableEq

/-- One VT object, flattened over the class hierarchy: the common `VTObject`
fields (`objectID`, `width`, `height`, `children`) plus the per-subclass
fields the verified commands touch (`value` for the Input/Output
number-valued objects and `NumberVariable::set_value`, and the two IDs of
`ExternalObjectPointer`). `objectType` is `get_object_type()`. -/
structure VTObject where
  objectType : VirtualTerminalObjectType
  objectID : Nat
  width : Nat
  height : Nat
  value : Nat
  children : List ChildObjectData
  externalReferenceNAMEObjectID : Nat
  externalObjectID : Nat
deriving DecidableEq

/-- `NULL_OBJECT_ID = 0xFFFF`. -/
def NULL_OBJECT_ID : Nat := 65535

/-- The `std::map<std::uint16_t, std::shared_ptr<VTObject>>` object pool
(`thisObjectPool`), embedded as an association list whose mapped values are
`Option VTObject` — `none` is a null `shared_ptr` (exactly what
`std::map::operator[]` value-initialises for an absent key). -/
abbrev VTObjectPool := List (Nat × Option VTObject)

/-- `std::map::find`-style lookup: `some v` when the key is present with
mapped shared_ptr `v` (itself possibly null), `none` when absent. -/
def pool_find : VTObjectPool → Nat → Option (Option VTObject)
  | [], _ => Option.none
  | e :: rest, objectID =>
    if e.fst = objectID then Option.some e.snd else pool_find rest objectID

/-- The dereferenced view of the pool: the object mapped at `objectID`, null
(`none`) when the key is absent or maps a null shared_ptr. -/
def value_lookup (pool : VTObjectPool) (objectID : Nat) : Option VTObject :=
  (pool_find pool objectID).getD Option.none

/-- `VTObject::get_object_by_id` (objects cpp lines 108-111):
`return thisObjectPool[objectID];`. `std::map::operator[]` returns the
mapped shared_ptr when the key exists, and otherwise INSERTS a
value-initialised (null) entry for the key and returns it. Result: the
returned pointer and the map after the call. (The map inserts in key order;
the association list appends — lookups agree since the key was absent.) -/
def VTObject_get_object_by_id (pool : VTObjectPool) (objectID : Nat) :
    Option VTObject × VTObjectPool :=
  match pool_find pool objectID with
  | Option.some v => (v, pool)
  | Option.none => (Option.none, pool ++ [(objectID, Option.none)])

/-- The child types `WorkingSet::get_is_valid` accepts (objects cpp lines
255-270): OutputList, Container, OutputString, OutputNumber, OutputLine,
OutputRectangle, OutputEllipse, OutputPolygon, OutputMeter,
OutputLinearBarGraph, OutputArchedBarGraph, GraphicsContext, PictureGraphic
and ObjectPointer. -/
def workingSetPermittedChildType : VirtualTerminalObjectType → Bool
  | VirtualTerminalObjectType.OutputList => true
  | VirtualTerminalObjectType.Container => true
  | VirtualTerminalObjectType.OutputString => true
  | VirtualTerminalObjectType.OutputNumber => true
  | VirtualTerminalObjectType.OutputLine => true
  | VirtualTerminalObjectType.OutputRectangle => true
  | VirtualTerminalObjectType.OutputEllipse => true
  | VirtualTerminalObjectType.OutputPolygon => true
  | VirtualTerminalObjectType.OutputMeter => true
  | VirtualTerminalObjectType.OutputLinearBarGraph => true
  | VirtualTerminalObjectType.OutputArchedBarGraph => true
  | VirtualTerminalObjectType.GraphicsContext => true
  | VirtualTerminalObjectType.PictureGraphic => true
  | VirtualTerminalObjectType.ObjectPointer => true
  | _ => false

/-- One iteration of the child loop of `WorkingSet::get_is_valid` (objects
cpp lines 244-279): look the child ID up (through `get_object_by_id`, which
can insert a null entry), and when a non-null object comes back, flag
`anyWrongChildType` unless its type is permitted; a null result leaves the
flag as it is. The accumulator is (anyWrongChildType, pool). -/
def is_valid_child_step (acc : Bool × VTObjectPool) (child : ChildObjectData) :
    Bool × VTObjectPool :=
  let lookup := VTObject_get_object_by_id acc.snd child.id
  match lookup.fst with
  | Option.some childObject =>
    (acc.fst || !workingSetPermittedChildType childObject.objectType, lookup.snd)
  | Option.none => (acc.fst, lookup.snd)

/-- `WorkingSet::get_is_valid` (objects cpp lines 240-280): fold the child
check over `children`, then return `!anyWrongChildType && objectID !=
NULL_OBJECT_ID`; paired with the pool after the lookups (the method is
`const` but `operator[]` still inserts). -/
def WorkingSet_get_is_valid (ws : VTObject) (pool : VTObjectPool) :
    Bool × VTObjectPool :=
  (!(ws.children.foldl is_valid_child_step (false, pool)).fst &&
     decide (ws.objectID ≠ NULL_OBJECT_ID),
   (ws.children.foldl is_valid_child_step (false, pool)).snd)

/-- Looking an absent key up inserts only a null entry, so the dereferenced
view of the pool is unchanged. -/
theorem value_lookup_append_none (pool : VTObjectPool) (objectID j : Nat)
    (h : pool_find pool objectID = Option.none) :
    value_lookup (pool ++ [(objectID, Option.none)]) j = value_lookup pool j := by
  induction pool with
  | nil =>
    by_cases hj : objectID = j <;> simp [value_lookup, pool_find, hj]
  | cons e rest ih =>
    rw [pool_find] at h
    by_cases he : e.fst = objectID
    · rw [if_pos he] at h; cases h
    · rw [if_neg he] at h
      have ihh := ih h
      by_cases hej : e.fst = j
      · simp [value_lookup, pool_find, hej]
      · simp only [value_lookup, List.cons_append, pool_find, if_neg hej]
        exact ihh

/-- `get_object_by_id` never changes the dereferenced view of the pool. -/
theorem value_lookup_get_object_by_id (pool : VTObjectPool) (objectID j : Nat) :
    value_lookup (VTObject_get_object_by_id pool objectID).snd j = value_lookup pool j := by
  unfold VTObject_get_object_by_id
  cases h : pool_find pool objectID with
  | some v => rfl
  | none => exact value_lookup_append_none pool objectID j h

/-- `(get_object_by_id pool id).fst` is exactly the dereferenced view at `id`. -/
theorem VTObject_get_object_by_id_fst (pool : VTObjectPool) (objectID : Nat) :
    (VTObject_get_object_by_id pool objectID).fst = value_lookup pool objectID := by
  unfold VTObject_get_object_by_id value_lookup
  cases h : pool_find pool objectID <;> simp [h]

/-- One child step, written through the dereferenced view of its pool. -/
theorem is_valid_child_step_eq (b : Bool) (pool' : VTObjectPool) (child : ChildObjectData) :
    is_valid_child_step (b, pool') child =
      (b || (match value_lookup pool' child.id with
             | Option.some childObject => !workingSetPermittedChildType childObject.objectType
             | Option.none => false),
       (VTObject_get_object_by_id pool' child.id).snd) := by
  unfold is_valid_child_step VTObject_get_object_by_id value_lookup
  cases h : pool_find pool' child.id with
  | some v => cases v with
    | some obj => simp [h]
    | none => simp [h]
  | none => simp [h]

/-- The child fold of `get_is_valid`: its flag is the `any` of the per-child
wrong-type test over the orignal pool's dereferenced view, and the lookups it
performs never change that view. -/
theorem is_valid_fold_characterization (children : List ChildObjectData)
    (pool : VTObjectPool) :
    ∀ (b : Bool) (pool' : VTObjectPool),
      (∀ j, value_lookup pool' j = value_lookup pool j) →
      (children.foldl is_valid_child_step (b, pool')).fst =
        (b || children.any fun child =>
          match value_lookup pool child.id with
          | Option.some childObject => !workingSetPermittedChildType childObject.objectType
          | Option.none => false) ∧
      (∀ j, value_lookup (children.foldl is_valid_child_step (b, pool')).snd j =
        value_lookup pool j) := by
  induction children with
  | nil =>
    intro b pool' hview
    exact ⟨by simp, hview⟩
  | cons child rest ih =>
    intro b pool' hview
    rw [List.foldl_cons, is_valid_child_step_eq, hview child.id]
    have hstep : ∀ j, value_lookup (VTObject_get_object_by_id pool' child.id).snd j =
        value_lookup pool j := fun j =>
      (value_lookup_get_object_by_id pool' child.id j).trans (hview j)
    have ihh := ih (b || (match value_lookup pool child.id with
        | Option.some childObject => !workingSetPermittedChildType childObject.objectType
        | Option.none => false)) ((VTObject_get_object_by_id pool' child.id).snd) hstep
    refine ⟨?_, ihh.2⟩
    rw [ihh.1, List.any_cons]
    cases h : value_lookup pool child.id with
    | some obj => simp [h, Bool.or_assoc]
    | none => simp [h]

/-- C8 (amended): `WorkingSet::get_is_valid` returns true iff the working
set's object ID is non-null and every child whose ID RESOLVES to an existing
object has a type in the working set's permitted-child set; a child ID that
resolves to nothing is skipped and does not fail validation. -/
theorem working_set_is_valid_amended_spec (ws : VTObject) (pool : VTObjectPool) :
    (WorkingSet_get_is_valid ws pool).fst = true ↔
      (ws.objectID ≠ NULL_OBJECT_ID ∧
       ∀ child ∈ ws.children, ∀ childObject,
         value_lookup pool child.id = Option.some childObject →
           workingSetPermittedChildType childObject.objectType = true) := by
  have hc := is_valid_fold_characterization ws.children pool false pool (fun _ => rfl)
  unfold WorkingSet_get_is_valid
  rw [hc.1]
  simp only [Bool.false_or, Bool.and_eq_true, Bool.not_eq_true', decide_eq_true_eq]
  constructor
  · rintro ⟨hany, hid⟩
    refine ⟨hid, ?_⟩
    intro child hmem obj hobj
    by_contra hperm
    have hfc : (match value_lookup pool child.id with
        | Option.some childObject => !workingSetPermittedChildType childObject.objectType
        | Option.none => false) = true := by
      rw [hobj]
      simp only [Bool.not_eq_true']
      cases hpc : workingSetPermittedChildType obj.objectType
      · rfl
      · exact absurd hpc hperm
    have hmain : (ws.children.any fun child =>
        match value_lookup pool child.id with
        | Option.some childObject => !workingSetPermittedChildType childObject.objectType
        | Option.none => false) = true :=
      List.any_eq_true.mpr ⟨child, hmem, hfc⟩
    rw [hany] at hmain
    cases hmain
  · rintro ⟨hid, hall⟩
    refine ⟨?_, hid⟩
    cases hany : (ws.children.any fun child =>
        match value_lookup pool child.id with
        | Option.some childObject => !workingSetPermittedChildType childObject.objectType
        | Option.none => false) with
    | false => rfl
    | true =>
      exfalso
      obtain ⟨child, hmem, hp⟩ := List.any_eq_true.mp hany
      cases hlk : value_lookup pool child.id with
      | none => simp [hlk] at hp
      | some obj =>
        have hgood := hall child hmem obj hlk
        simp [hlk, hgood] at hp

/-- A working set whose only child reference (ID 2) resolves to no object. -/
def ws_with_dangling_child : VTObject :=
  { objectType := VirtualTerminalObjectType.WorkingSet, objectID := 1,
    width := 100, height := 100, value := 0,
    children := [{ id := 2, xLocation := 0, yLocation := 0 }],
    externalReferenceNAMEObjectID := 0, externalObjectID := 0 }

/-- A pool holding only that working set: child ID 2 is dangling. -/
def dangling_child_pool : VTObjectPool := [(1, Option.some ws_with_dangling_child)]

/-- C8 counterexample: a working set (object ID 1) whose only child reference
(ID 2) resolves to NO object still validates — `get_is_valid` returns true —
refuting the claim that validation passes only when every child ID reference
resolves to an existing object of a permitted type. -/
theorem working_set_is_valid_dangling_child_counterexample :
    (WorkingSet_get_is_valid ws_with_dangling_child dangling_child_pool).fst = true ∧
    ¬ (∀ child ∈ ws_with_dangling_child.children,
        ∃ childObject,
          value_lookup dangling_child_pool child.id = Option.some childObject ∧
          workingSetPermittedChildType childObject.objectType = true) := by
  refine ⟨by decide, ?_⟩
  intro hall
  obtain ⟨childObject, hlk, _⟩ :=
    hall { id := 2, xLocation := 0, yLocation := 0 }
      (by simp [ws_with_dangling_child])
  simp [value_lookup, pool_find, dangling_child_pool] at hlk

/-- C10 counterexample: on the empty pool, looking up ID 5 returns a null
pointer but does NOT leave the pool unchanged — `std::map::operator[]`
inserts a null entry for the key — refuting the claimed frame property. -/
theorem get_object_by_id_inserts_counterexample :
    (VTObject_get_object_by_id [] 5).fst = Option.none ∧
    (VTObject_get_object_by_id [] 5).snd = [(5, Option.none)] ∧
    (VTObject_get_object_by_id [] 5).snd ≠ ([] : VTObjectPool) := by
  refine ⟨rfl, rfl, by decide⟩

/-- C10 (amended): `get_object_by_id` returns the object mapped at the given
ID (null when absent or mapped null); the pool is unchanged when the key is
present, and gains exactly one null entry for the key when it is absent —
so `get_is_valid`'s lookups can add null entries to the pool, though the
dereferenced view (every subsequent lookup's result) is unchanged, both for
a single lookup and across a whole `get_is_valid` run. -/
theorem get_object_by_id_amended_spec (pool : VTObjectPool) (objectID : Nat) :
    (VTObject_get_object_by_id pool objectID).fst = value_lookup pool objectID ∧
    ((pool_find pool objectID).isSome = true →
      (VTObject_get_object_by_id pool objectID).snd = pool) ∧
    (pool_find pool objectID = Option.none →
      (VTObject_get_object_by_id pool objectID).snd = pool ++ [(objectID, Option.none)]) ∧
    (∀ j, value_lookup (VTObject_get_object_by_id pool objectID).snd j =
      value_lookup pool j) ∧
    (∀ ws j, value_lookup (WorkingSet_get_is_valid ws pool).snd j =
      value_lookup pool j) := by
  refine ⟨VTObject_get_object_by_id_fst pool objectID, ?_, ?_, ?_, ?_⟩
  · intro hsome
    unfold VTObject_get_object_by_id
    cases h : pool_find pool objectID with
    | some v => rfl
    | none => rw [h] at hsome; cases hsome
  · intro hnone
    unfold VTObject_get_object_by_id
    rw [hnone]
  · exact value_lookup_get_object_by_id pool objectID
  · intro ws j
    exact (is_valid_fold_characterization ws.children pool false pool (fun _ => rfl)).2 j

/-! ## Virtual Terminal server: command handlers
(`VirtualTerminalServer::process_rx_message`, src/unnamed/part_000) -/

/-- Modelled from the spec: `VirtualTerminalServerManagedWorkingSet`'s parsed
object pool, "an indexed collection mapping object ID → object" (spec §3);
the class's implementation file is not among the given sources. Values here
are real objects (no null entries). -/
abbrev ManagedPool := List (Nat × VTObject)

/-- Modelled from the spec: `cf->get_object_by_id` on a managed working set —
a pure lookup in the parsed pool, null (`none`) when the ID maps no object. -/
def mws_get_object_by_id : ManagedPool → Nat → Option VTObject
  | [], _ => Option.none
  | e :: rest, objectID =>
    if e.fst = objectID then Option.some e.snd else mws_get_object_by_id rest objectID

/-- Replacing the object mapped at an ID (the C++ mutates the pooled object
through its `shared_ptr` in place; the functional embedding swaps the entry). -/
def mws_pool_set : ManagedPool → Nat → VTObject → ManagedPool
  | [], _, _ => []
  | e :: rest, objectID, obj =>
    if e.fst = objectID then (e.fst, obj) :: rest
    else e :: mws_pool_set rest objectID obj

/-- Modelled from the spec: `Function::ChangeNumericValueCommand` = 0xA8
(spec §4.C command table; the Function enum's header is not among the
given sources). -/
def ChangeNumericValueCommand : Nat := 0xA8

/-- Modelled from the spec: `Function::ChangeChildLocationCommand` = 0xA5. -/
def ChangeChildLocationCommand : Nat := 0xA5

/-- Modelled from the spec: `Function::ChangeSizeCommand` = 0xAB. -/
def ChangeSizeCommand : Nat := 0xAB

/-- Modelled from the spec: bit index of
`ChangeNumericValueErrorBit::InvalidObjectID`. The enum's header is not
among the given sources; the claims only distinguish a zero bitfield from
one with the named bit set, so the exact index is immaterial. -/
def ChangeNumericValueErrorBit_InvalidObjectID : Nat := 0

/-- Modelled from the spec: bit index of
`ChangeNumericValueErrorBit::AnyOtherError` (see the note on
`ChangeNumericValueErrorBit_InvalidObjectID`). -/
def ChangeNumericValueErrorBit_AnyOtherError : Nat := 4

/-- Modelled from the spec: bit index of `ChangeSizeErrorBit::InvalidObjectID`. -/
def ChangeSizeErrorBit_InvalidObjectID : Nat := 0

/-- Modelled from the spec: bit index of `ChangeSizeErrorBit::AnyOtherError`. -/
def ChangeSizeErrorBit_AnyOtherError : Nat := 4

/-- Modelled from the spec: bit index of `ChangeChildLocationorPositionErrorBit::ParentObjectDoesntExistOrIsNotAParentOfSpecifiedObject`. -/
def ChangeChildLocationorPositionErrorBit_ParentObjectDoesntExist : Nat := 0

/-- Modelled from the spec: bit index of `ChangeChildLocationorPositionErrorBit::TargetObjectDoesNotExistOrIsNotApplicable`. -/
def ChangeChildLocationorPositionErrorBit_TargetObjectDoesNotExist : Nat := 1

/-- The object ID field of a VT command frame: `data[1] | (data[2] << 8)`. -/
def vt_object_id (data : List Nat) : Nat :=
  tp_get_uint8_at data 1 + 256 * tp_get_uint8_at data 2

/-- The 32-bit little-endian value of a ChangeNumericValue frame:
`data[4] | (data[5] << 8) | (data[6] << 16) | (data[7] << 24)` (part_000
line 640; `|` of disjoint shifted byte fields, i.e. the byte-weighted sum). -/
def change_numeric_value_of (data : List Nat) : Nat :=
  tp_get_uint8_at data 4 + 256 * tp_get_uint8_at data 5 +
    65536 * tp_get_uint8_at data 6 + 16777216 * tp_get_uint8_at data 7

/-- `send_change_numeric_value_response` (part_000 lines 1764-1789): function
byte, object ID little-endian, the error bitfield at byte 3, then the value
little-endian in bytes 4..7 (each a `static_cast<std::uint8_t>` of a shift). -/
def send_change_numeric_value_response_buffer (objectID errorBitfield value : Nat) :
    List Nat :=
  [ChangeNumericValueCommand, objectID % 256, (objectID / 256) % 256,
   errorBitfield % 256, value % 256, (value / 256) % 256,
   (value / 65536) % 256, (value / 16777216) % 256]

/-- `send_change_size_response` (part_000 lines 1791-1816): function byte,
object ID little-endian, error bitfield at byte 3, 0xFF padding. -/
def send_change_size_response_buffer (objectID errorBitfield : Nat) : List Nat :=
  [ChangeSizeCommand, objectID % 256, (objectID / 256) % 256,
   errorBitfield % 256, 0xFF, 0xFF, 0xFF, 0xFF]

/-- `send_change_child_location_response` (part_000 lines 1521-1546):
function byte, parent ID little-endian, target ID little-endian, error
bitfield at byte 5, 0xFF padding. -/
def send_change_child_location_response_buffer
    (parentObjectID objectID errorBitfield : Nat) : List Nat :=
  [ChangeChildLocationCommand, parentObjectID % 256, (parentObjectID / 256) % 256,
   objectID % 256, (objectID / 256) % 256, errorBitfield % 256, 0xFF, 0xFF]

/-- What one VT command case produces: the pool afterwards, the response
frame handed to `send_can_message` (none when no response goes out), and how
often each relevant event dispatcher fired (`onRepaintEventDispatcher`,
`onChangeNumericValueEventDispatcher`, `onChangeChildLocationEventDispatcher`). -/
structure VTCommandResult where
  pool : ManagedPool
  response : Option (List Nat)
  repaintEvents : Nat
  numericValueEvents : Nat
  childLocationEvents : Nat
deriving DecidableEq

/-- `VTObject::pop_child` (objects cpp lines 196-202): drop the last child
when there is one. -/
def pop_child (children : List ChildObjectData) : List ChildObjectData :=
  children.dropLast

/-- `VTObject::add_child` (objects cpp lines 117-120): append a child entry. -/
def add_child (children : List ChildObjectData) (objectID : Nat) (x y : Int) :
    List ChildObjectData :=
  children ++ [{ id := objectID, xLocation := x, yLocation := y }]

/-- The `Function::ChangeNumericValueCommand` case of `process_rx_message`
(part_000 lines 638-770), for a registered client whose frame passed the
length gate. The value-carrying branches (InputBoolean, InputNumber,
InputList, OutputNumber, OutputList, OutputMeter, OutputLinearBarGraph,
OutputArchedBarGraph, NumberVariable; lines 649-719) each call the
subclass's `set_value(value)`, fire the change-numeric-value event once and
respond with errorBits = 0; ObjectPointer pops its child and adds `value` as
the new child ID; ExternalObjectPointer stores the two IDs from bytes 4..7
(no event); Animation answers AnyOtherError; every other type, and an
unknown object ID, answers InvalidObjectID. No branch fires the repaint
event (`onRepaintEventDispatcher`). -/
def process_change_numeric_value_command (pool : ManagedPool) (data : List Nat) :
    VTCommandResult :=
  let value := change_numeric_value_of data
  let objectId := vt_object_id data
  match mws_get_object_by_id pool objectId with
  | Option.some lTargetObject =>
    match lTargetObject.objectType with
    | VirtualTerminalObjectType.InputBoolean
    | VirtualTerminalObjectType.InputNumber
    | VirtualTerminalObjectType.InputList
    | VirtualTerminalObjectType.OutputNumber
    | VirtualTerminalObjectType.OutputList
    | VirtualTerminalObjectType.OutputMeter
    | VirtualTerminalObjectType.OutputLinearBarGraph
    | VirtualTerminalObjectType.OutputArchedBarGraph
    | VirtualTerminalObjectType.NumberVariable =>
      { pool := mws_pool_set pool objectId { lTargetObject with value := value }
        response := Option.some (send_change_numeric_value_response_buffer objectId 0 value)
        repaintEvents := 0
        numericValueEvents := 1
        childLocationEvents := 0 }
    | VirtualTerminalObjectType.ObjectPointer =>
      { pool := mws_pool_set pool objectId
          { lTargetObject with
            children := add_child (pop_child lTargetObject.children) value 0 0 }
        response := Option.some (send_change_numeric_value_response_buffer objectId 0 value)
        repaintEvents := 0
        numericValueEvents := 1
        childLocationEvents := 0 }
    | VirtualTerminalObjectType.ExternalObjectPointer =>
      { pool := mws_pool_set pool objectId
          { lTargetObject with
            externalReferenceNAMEObjectID :=
              tp_get_uint8_at data 4 + 256 * tp_get_uint8_at data 5
            externalObjectID :=
              tp_get_uint8_at data 6 + 256 * tp_get_uint8_at data 7 }
        response := Option.some (send_change_numeric_value_response_buffer objectId 0 value)
        repaintEvents := 0
        numericValueEvents := 0
        childLocationEvents := 0 }
    | VirtualTerminalObjectType.Animation =>
      { pool := pool
        response := Option.some (send_change_numeric_value_response_buffer objectId
          (1 <<< ChangeNumericValueErrorBit_AnyOtherError) value)
        repaintEvents := 0
        numericValueEvents := 0
        childLocationEvents := 0 }
    | _ =>
      { pool := pool
        response := Option.some (send_change_numeric_value_response_buffer objectId
          (1 <<< ChangeNumericValueErrorBit_InvalidObjectID) value)
        repaintEvents := 0
        numericValueEvents := 0
        childLocationEvents := 0 }
  | Option.none =>
    { pool := pool
      response := Option.some (send_change_numeric_value_response_buffer objectId
        (1 <<< ChangeNumericValueErrorBit_InvalidObjectID) value)
      repaintEvents := 0
      numericValueEvents := 0
      childLocationEvents := 0 }

/-- The NumberVariable object of the C5 scenario: ID 501, value 0. -/
def number_variable_501 : VTObject :=
  { objectType := VirtualTerminalObjectType.NumberVariable, objectID := 501,
    width := 0, height := 0, value := 0, children := [],
    externalReferenceNAMEObjectID := 0, externalObjectID := 0 }

/-- C5 counterexample: ChangeNumericValue(objectID = 501, value = 0x12345678)
against an existing NumberVariable sets the value and responds, but fires the
repaint event ZERO times, not once — the command fires the
change-numeric-value event instead (spec §4.D lists the two as distinct
events; the repaint dispatcher is only called by other commands, e.g.
ChangeSize at part_000 line 1218). -/
theorem change_numeric_value_no_repaint_counterexample :
    mws_get_object_by_id [(501, number_variable_501)] 501 =
      Option.some number_variable_501 ∧
    number_variable_501.objectType = VirtualTerminalObjectType.NumberVariable ∧
    vt_object_id [0xA8, 0xF5, 0x01, 0xFF, 0x78, 0x56, 0x34, 0x12] = 501 ∧
    (process_change_numeric_value_command [(501, number_variable_501)]
        [0xA8, 0xF5, 0x01, 0xFF, 0x78, 0x56, 0x34, 0x12]).repaintEvents = 0 ∧
    (0 : Nat) ≠ 1 ∧
    (process_change_numeric_value_command [(501, number_variable_501)]
        [0xA8, 0xF5, 0x01, 0xFF, 0x78, 0x56, 0x34, 0x12]).numericValueEvents = 1 := by
  refine ⟨by decide, by decide, by decide, by decide, by decide, by decide⟩

/-- C5 (amended): a ChangeNumericValue command whose target exists and is a
NumberVariable stores the 32-bit little-endian value of bytes 4..7 in the
object, responds with errorBits = 0 echoing the same value bytes (response
bytes 4..7 equal the command's bytes 4..7), and fires the
change-numeric-value event exactly once; the repaint event is not fired by
this command. -/
theorem change_numeric_value_number_variable_spec (pool : ManagedPool)
    (data : List Nat) (obj : VTObject)
    (hobj : mws_get_object_by_id pool (vt_object_id data) = Option.some obj)
    (htype : obj.objectType = VirtualTerminalObjectType.NumberVariable) :
    process_change_numeric_value_command pool data =
      { pool := mws_pool_set pool (vt_object_id data)
          { obj with value := change_numeric_value_of data }
        response := Option.some (send_change_numeric_value_response_buffer
          (vt_object_id data) 0 (change_numeric_value_of data))
        repaintEvents := 0
        numericValueEvents := 1
        childLocationEvents := 0 } ∧
    (send_change_numeric_value_response_buffer (vt_object_id data) 0
        (change_numeric_value_of data)).getD 3 0 = 0 ∧
    (send_change_numeric_value_response_buffer (vt_object_id data) 0
        (change_numeric_value_of data)).getD 4 0 = tp_get_uint8_at data 4 ∧
    (send_change_numeric_value_response_buffer (vt_object_id data) 0
        (change_numeric_value_of data)).getD 5 0 = tp_get_uint8_at data 5 ∧
    (send_change_numeric_value_response_buffer (vt_object_id data) 0
        (change_numeric_value_of data)).getD 6 0 = tp_get_uint8_at data 6 ∧
    (send_change_numeric_value_response_buffer (vt_object_id data) 0
        (change_numeric_value_of data)).getD 7 0 = tp_get_uint8_at data 7 := by
  have hb4 : tp_get_uint8_at data 4 < 256 := Nat.mod_lt _ (by omega)
  have hb5 : tp_get_uint8_at data 5 < 256 := Nat.mod_lt _ (by omega)
  have hb6 : tp_get_uint8_at data 6 < 256 := Nat.mod_lt _ (by omega)
  have hb7 : tp_get_uint8_at data 7 < 256 := Nat.mod_lt _ (by omega)
  refine ⟨?_, rfl, ?_, ?_, ?_, ?_⟩
  · simp only [process_change_numeric_value_command, hobj, htype]
  · simp only [send_change_numeric_value_response_buffer, change_numeric_value_of,
      List.getD, List.get?, Option.getD]
    omega
  · simp only [send_change_numeric_value_response_buffer, change_numeric_value_of,
      List.getD, List.get?, Option.getD]
    omega
  · simp only [send_change_numeric_value_response_buffer, change_numeric_value_of,
      List.getD, List.get?, Option.getD]
    omega
  · simp only [send_change_numeric_value_response_buffer, change_numeric_value_of,
      List.getD, List.get?, Option.getD]
    omega

/-- Witness for C5 (amended) at the scenario input: pool {501 ↦
NumberVariable}, frame [0xA8, 0xF5, 0x01, 0xFF, 0x78, 0x56, 0x34, 0x12]:
the stored value is 0x12345678, the response is
[0xA8, 0xF5, 0x01, 0, 0x78, 0x56, 0x34, 0x12], the change-numeric-value
event fires once and the repaint event does not fire. -/
theorem change_numeric_value_number_variable_spec_witness :
    process_change_numeric_value_command [(501, number_variable_501)]
        [0xA8, 0xF5, 0x01, 0xFF, 0x78, 0x56, 0x34, 0x12] =
      { pool := [(501, { number_variable_501 with value := 0x12345678 })]
        response := Option.some [0xA8, 0xF5, 0x01, 0x00, 0x78, 0x56, 0x34, 0x12]
        repaintEvents := 0
        numericValueEvents := 1
        childLocationEvents := 0 } := by
  have h := change_numeric_value_number_variable_spec [(501, number_variable_501)]
    [0xA8, 0xF5, 0x01, 0xFF, 0x78, 0x56, 0x34, 0x12] number_variable_501
    (by decide) (by decide)
  rw [h.1]
  decide

/-- The new width of a ChangeSize frame: `data[3] | (data[4] << 8)` (part_000
line 1174). -/
def change_size_width (data : List Nat) : Nat :=
  tp_get_uint8_at data 3 + 256 * tp_get_uint8_at data 4

/-- The new height of a ChangeSize frame: `data[5] | (data[6] << 8)` (line
1175). -/
def change_size_height (data : List Nat) : Nat :=
  tp_get_uint8_at data 5 + 256 * tp_get_uint8_at data 6

/-- The `Function::ChangeSizeCommand` case of `process_rx_message` (part_000
lines 1171-1241). OutputMeter demands a square size: equal width and height
set both dimensions, fire the repaint event and respond with errorBits = 0;
unequal ones change nothing, fire nothing and respond with the AnyOtherError
bit. The listed geometric types (lines 1202-1212) take any size; any other
type answers AnyOtherError; an unknown ID answers InvalidObjectID. -/
def process_change_size_command (pool : ManagedPool) (data : List Nat) :
    VTCommandResult :=
  let objectID := vt_object_id data
  let newWidth := change_size_width data
  let newHeight := change_size_height data
  match mws_get_object_by_id pool objectID with
  | Option.some targetObject =>
    match targetObject.objectType with
    | VirtualTerminalObjectType.OutputMeter =>
      if newWidth = newHeight then
        { pool := mws_pool_set pool objectID
            { targetObject with width := newWidth, height := newHeight }
          response := Option.some (send_change_size_response_buffer objectID 0)
          repaintEvents := 1
          numericValueEvents := 0
          childLocationEvents := 0 }
      else
        { pool := pool
          response := Option.some (send_change_size_response_buffer objectID
            (1 <<< ChangeSizeErrorBit_AnyOtherError))
          repaintEvents := 0
          numericValueEvents := 0
          childLocationEvents := 0 }
    | VirtualTerminalObjectType.Animation
    | VirtualTerminalObjectType.OutputArchedBarGraph
    | VirtualTerminalObjectType.OutputPolygon
    | VirtualTerminalObjectType.OutputEllipse
    | VirtualTerminalObjectType.OutputRectangle
    | VirtualTerminalObjectType.OutputLine
    | VirtualTerminalObjectType.OutputNumber
    | VirtualTerminalObjectType.OutputList
    | VirtualTerminalObjectType.InputList
    | VirtualTerminalObjectType.Button
    | VirtualTerminalObjectType.Container =>
      { pool := mws_pool_set pool objectID
          { targetObject with width := newWidth, height := newHeight }
        response := Option.some (send_change_size_response_buffer objectID 0)
        repaintEvents := 1
        numericValueEvents := 0
        childLocationEvents := 0 }
    | _ =>
      { pool := pool
        response := Option.some (send_change_size_response_buffer objectID
          (1 <<< ChangeSizeErrorBit_AnyOtherError))
        repaintEvents := 0
        numericValueEvents := 0
        childLocationEvents := 0 }
  | Option.none =>
    { pool := pool
      response := Option.some (send_change_size_response_buffer objectID
        (1 <<< ChangeSizeErrorBit_InvalidObjectID))
      repaintEvents := 0
      numericValueEvents := 0
      childLocationEvents := 0 }

/-- C6: for a ChangeSize command whose target exists and is an OutputMeter:
unequal requested width and height leave the pool (hence the object's
dimensions) unchanged, fire no repaint event, and draw a response whose
error bitfield has the AnyOtherError bit set (and is nonzero); equal ones
set both dimensions, respond with errorBits = 0 and fire the repaint event
exactly once. -/
theorem change_size_output_meter_spec (pool : ManagedPool) (data : List Nat)
    (obj : VTObject)
    (hobj : mws_get_object_by_id pool (vt_object_id data) = Option.some obj)
    (htype : obj.objectType = VirtualTerminalObjectType.OutputMeter) :
    (change_size_width data ≠ change_size_height data →
      process_change_size_command pool data =
        { pool := pool
          response := Option.some (send_change_size_response_buffer (vt_object_id data)
            (1 <<< ChangeSizeErrorBit_AnyOtherError))
          repaintEvents := 0
          numericValueEvents := 0
          childLocationEvents := 0 } ∧
      (send_change_size_response_buffer (vt_object_id data)
        (1 <<< ChangeSizeErrorBit_AnyOtherError)).getD 3 0 ≠ 0) ∧
    (change_size_width data = change_size_height data →
      process_change_size_command pool data =
        { pool := mws_pool_set pool (vt_object_id data)
            { obj with width := change_size_width data,
                       height := change_size_height data }
          response := Option.some (send_change_size_response_buffer (vt_object_id data) 0)
          repaintEvents := 1
          numericValueEvents := 0
          childLocationEvents := 0 } ∧
      (send_change_size_response_buffer (vt_object_id data) 0).getD 3 0 = 0) := by
  constructor
  · intro hne
    refine ⟨?_, ?_⟩
    · simp only [process_change_size_command, hobj, htype]
      rw [if_neg hne]
    · simp [send_change_size_response_buffer, ChangeSizeErrorBit_AnyOtherError]
  · intro heq
    refine ⟨?_, ?_⟩
    · simp only [process_change_size_command, hobj, htype]
      rw [if_pos heq]
    · simp [send_change_size_response_buffer]

/-- Witness for C6 at the scenario input: OutputMeter with ID 600; width=100,
height=50 is rejected with the AnyOtherError bit and no repaint; width=100,
height=100 is applied, answered with errorBits = 0 and one repaint. -/
theorem change_size_output_meter_spec_witness :
    process_change_size_command
        [(600, { objectType := VirtualTerminalObjectType.OutputMeter, objectID := 600,
                 width := 30, height := 30, value := 0, children := [],
                 externalReferenceNAMEObjectID := 0, externalObjectID := 0 })]
        [0xAB, 0x58, 0x02, 100, 0, 50, 0, 0xFF] =
      { pool := [(600, { objectType := VirtualTerminalObjectType.OutputMeter,
                         objectID := 600, width := 30, height := 30, value := 0,
                         children := [], externalReferenceNAMEObjectID := 0,
                         externalObjectID := 0 })]
        response := Option.some [0xAB, 0x58, 0x02, 16, 0xFF, 0xFF, 0xFF, 0xFF]
        repaintEvents := 0
        numericValueEvents := 0
        childLocationEvents := 0 } ∧
    process_change_size_command
        [(600, { objectType := VirtualTerminalObjectType.OutputMeter, objectID := 600,
                 width := 30, height := 30, value := 0, children := [],
                 externalReferenceNAMEObjectID := 0, externalObjectID := 0 })]
        [0xAB, 0x58, 0x02, 100, 0, 100, 0, 0xFF] =
      { pool := [(600, { objectType := VirtualTerminalObjectType.OutputMeter,
                         objectID := 600, width := 100, height := 100, value := 0,
                         children := [], externalReferenceNAMEObjectID := 0,
                         externalObjectID := 0 })]
        response := Option.some [0xAB, 0x58, 0x02, 0, 0xFF, 0xFF, 0xFF, 0xFF]
        repaintEvents := 1
        numericValueEvents := 0
        childLocationEvents := 0 } := by
  have hr := change_size_output_meter_spec
    [(600, { objectType := VirtualTerminalObjectType.OutputMeter, objectID := 600,
             width := 30, height := 30, value := 0, children := [],
             externalReferenceNAMEObjectID := 0, externalObjectID := 0 })]
    [0xAB, 0x58, 0x02, 100, 0, 50, 0, 0xFF]
    { objectType := VirtualTerminalObjectType.OutputMeter, objectID := 600,
      width := 30, height := 30, value := 0, children := [],
      externalReferenceNAMEObjectID := 0, externalObjectID := 0 }
    (by decide) (by decide)
  have hs := change_size_output_meter_spec
    [(600, { objectType := VirtualTerminalObjectType.OutputMeter, objectID := 600,
             width := 30, height := 30, value := 0, children := [],
             externalReferenceNAMEObjectID := 0, externalObjectID := 0 })]
    [0xAB, 0x58, 0x02, 100, 0, 100, 0, 0xFF]
    { objectType := VirtualTerminalObjectType.OutputMeter, objectID := 600,
      width := 30, height := 30, value := 0, children := [],
      externalReferenceNAMEObjectID := 0, externalObjectID := 0 }
    (by decide) (by decide)
  refine ⟨?_, ?_⟩
  · rw [(hr.1 (by decide)).1]; decide
  · rw [(hs.2 (by decide)).1]; decide

/-- A C++ `std::int8_t` narrowing cast: reduce into [-128, 127] modulo 256. -/
def toInt8 (z : Int) : Int := (z + 128).emod 256 - 128

/-- A C++ `std::int16_t` result: reduce into [-32768, 32767] modulo 65536
(the `+=` below stores into the `std::int16_t` child offsets). -/
def toInt16 (z : Int) : Int := (z + 32768).emod 65536 - 32768

/-- `VTObject::offset_all_children_x_with_id` (objects cpp lines 172-185):
adds the two offsets to every child entry whose ID matches. Its `retVal` is
initialised `false` and NEVER assigned in the loop, so the function returns
false even when children matched (the variable is dead otherwise; the
caller reads it as "any object matched"). -/
def offset_all_children_x_with_id (obj : VTObject) (childObjectID : Nat)
    (xOffset yOffset : Int) : VTObject × Bool :=
  ({ obj with
     children := obj.children.map fun child =>
       if child.id = childObjectID then
         { child with
           xLocation := toInt16 (child.xLocation + xOffset)
           yLocation := toInt16 (child.yLocation + yOffset) }
       else child },
   false)

/-- The `Function::ChangeChildLocationCommand` case of `process_rx_message`
(part_000 lines 871-911): parent ID from bytes 1..2, target ID from bytes
3..4; both must resolve. The deltas are `static_cast<std::int8_t>(data[5] -
127)` and likewise for y (line 883-884). The offsets are applied through
`offset_all_children_x_with_id`, the change-child-location event fires
(line 887, before the result check), and the response carries errorBits = 0
when `anyObjectMatched`, else the TargetObjectDoesNotExistOrIsNotApplicable
bit. -/
def process_change_child_location_command (pool : ManagedPool) (data : List Nat) :
    VTCommandResult :=
  let parentObjectId := tp_get_uint8_at data 1 + 256 * tp_get_uint8_at data 2
  let objectID := tp_get_uint8_at data 3 + 256 * tp_get_uint8_at data 4
  match mws_get_object_by_id pool parentObjectId with
  | Option.some parentObject =>
    match mws_get_object_by_id pool objectID with
    | Option.some _ =>
      let xRelativeChange := toInt8 ((tp_get_uint8_at data 5 : Int) - 127)
      let yRelativeChange := toInt8 ((tp_get_uint8_at data 6 : Int) - 127)
      let r := offset_all_children_x_with_id parentObject objectID
        xRelativeChange yRelativeChange
      if r.snd then
        { pool := mws_pool_set pool parentObjectId r.fst
          response := Option.some (send_change_child_location_response_buffer
            parentObjectId objectID 0)
          repaintEvents := 0
          numericValueEvents := 0
          childLocationEvents := 1 }
      else
        { pool := mws_pool_set pool parentObjectId r.fst
          response := Option.some (send_change_child_location_response_buffer
            parentObjectId objectID
            (1 <<< ChangeChildLocationorPositionErrorBit_TargetObjectDoesNotExist))
          repaintEvents := 0
          numericValueEvents := 0
          childLocationEvents := 1 }
    | Option.none =>
      { pool := pool
        response := Option.some (send_change_child_location_response_buffer
          parentObjectId objectID
          (1 <<< ChangeChildLocationorPositionErrorBit_TargetObjectDoesNotExist))
        repaintEvents := 0
        numericValueEvents := 0
        childLocationEvents := 0 }
  | Option.none =>
    { pool := pool
      response := Option.some (send_change_child_location_response_buffer
        parentObjectId objectID
        (1 <<< ChangeChildLocationorPositionErrorBit_ParentObjectDoesntExist))
      repaintEvents := 0
      numericValueEvents := 0
      childLocationEvents := 0 }

/-- The parent object of the C7 scenario: Container 10 with one child entry
for object 20 at offset (5, 6). -/
def container_10 : VTObject :=
  { objectType := VirtualTerminalObjectType.Container, objectID := 10,
    width := 50, height := 50, value := 0,
    children := [{ id := 20, xLocation := 5, yLocation := 6 }],
    externalReferenceNAMEObjectID := 0, externalObjectID := 0 }

/-- The target object of the C7 scenario. -/
def output_number_20 : VTObject :=
  { objectType := VirtualTerminalObjectType.OutputNumber, objectID := 20,
    width := 10, height := 10, value := 0, children := [],
    externalReferenceNAMEObjectID := 0, externalObjectID := 0 }

/-- C7 (code bug): ChangeChildLocation(parent 10, target 20, raw deltas
x = 128, y = 130 i.e. +1 and +3) against a parent that HAS a matching child
entry applies the offsets — child (5, 6) becomes (6, 9) — yet the response
carries the TargetObjectDoesNotExistOrIsNotApplicable error bit instead of
errorBits = 0, because `offset_all_children_x_with_id` always returns false
(its `retVal` is never set). The claim's "replies with errorBits = 0" fails
on every matching input. -/
theorem change_child_location_retval_bug_eval :
    offset_all_children_x_with_id container_10 20 1 3 =
      ({ container_10 with
         children := [{ id := 20, xLocation := 6, yLocation := 9 }] }, false) ∧
    process_change_child_location_command
        [(10, container_10), (20, output_number_20)]
        [0xA5, 10, 0, 20, 0, 128, 130, 0xFF] =
      { pool := [(10, { container_10 with
                        children := [{ id := 20, xLocation := 6, yLocation := 9 }] }),
                 (20, output_number_20)]
        response := Option.some [0xA5, 10, 0, 20, 0, 2, 0xFF, 0xFF]
        repaintEvents := 0
        numericValueEvents := 0
        childLocationEvents := 1 } ∧
    (2 : Nat) ≠ 0 := by
  refine ⟨by decide, by decide, by decide⟩
